import Mathlib

/-!
Shallow embedding of the data layer of the Local Food Wastage Management
System (`app.py`): a SQLite store with four tables (Providers, Receivers,
Food_Listings, Claims), foreign-key enforcement enabled
(`PRAGMA foreign_keys = ON`), `ON DELETE CASCADE` on
Food_Listings.Provider_ID and Claims.Food_ID / Claims.Receiver_ID, the CRUD
functions (`add_provider`, `add_food_listing`, `delete_listing`,
`delete_provider`), `setup_database`, and the read-only report queries issued
by `main`.

Rows are records; a table is its list of rows plus the AUTOINCREMENT
sequence counter (SQLite's `sqlite_sequence` entry: the largest rowid ever
used, so deleted ids are not reused). TEXT/DATE columns are `String` (SQLite
stores the dates as ISO text and compares them as text), INTEGER columns are
`Int` or `Nat` ids; nullable foreign-key columns are `Option Nat`.
-/

/-- A row of the Providers table:
Provider_ID, Name, Type, Address, City, Contact. -/
structure Provider where
  providerId : Nat
  name : String
  ptype : String
  address : String
  city : String
  contact : String
deriving DecidableEq, Repr

/-- A row of the Receivers table: Receiver_ID, Name, Type, City, Contact. -/
structure Receiver where
  receiverId : Nat
  name : String
  rtype : String
  city : String
  contact : String
deriving DecidableEq, Repr

/-- A row of the Food_Listings table: Food_ID, Food_Name, Quantity,
Expiry_Date, Provider_ID (nullable foreign key to Providers, ON DELETE
CASCADE), Provider_Type, Location, Food_Type, Meal_Type. -/
structure FoodListing where
  foodId : Nat
  foodName : String
  quantity : Int
  expiryDate : String
  providerId : Option Nat
  providerType : String
  location : String
  foodType : String
  mealType : String
deriving DecidableEq, Repr

/-- A row of the Claims table: Claim_ID, Food_ID (nullable foreign key to
Food_Listings, ON DELETE CASCADE), Receiver_ID (nullable foreign key to
Receivers, ON DELETE CASCADE), Status, Timestamp. -/
structure Claim where
  claimId : Nat
  foodId : Option Nat
  receiverId : Option Nat
  status : String
  timestamp : String
deriving DecidableEq, Repr

/-- A table: its rows plus its AUTOINCREMENT sequence counter
(`sqlite_sequence`), the largest rowid ever used in the table. -/
structure Table (ρ : Type) where
  rows : List ρ
  seq : Nat
deriving DecidableEq, Repr

/-- The whole SQLite store. -/
structure DB where
  providers : Table Provider
  receivers : Table Receiver
  foodListings : Table FoodListing
  claims : Table Claim
deriving DecidableEq, Repr

/-- A fresh store: the state right after `CREATE TABLE` with no data. -/
def emptyDB : DB :=
  { providers := { rows := [], seq := 0 },
    receivers := { rows := [], seq := 0 },
    foodListings := { rows := [], seq := 0 },
    claims := { rows := [], seq := 0 } }

/-- Largest element of a list of ids (0 when empty). -/
def maxIdList (ids : List Nat) : Nat := ids.foldr max 0

/-- The rowid SQLite AUTOINCREMENT assigns to the next inserted row:
one more than the larger of the sequence counter and the current largest
rowid in the table. -/
def nextId {ρ : Type} (idOf : ρ → Nat) (t : Table ρ) : Nat :=
  max t.seq (maxIdList (t.rows.map idOf)) + 1

/-- Errors surfaced by the repository layer. `referentialError` is the
`sqlite3.IntegrityError` raised when an insert violates an enabled
foreign-key constraint. -/
inductive RepoError where
  | referentialError
deriving DecidableEq, Repr

/-- Whether a Provider row with the given Provider_ID exists. -/
def providerExists (db : DB) (pid : Nat) : Bool :=
  db.providers.rows.any (fun p => p.providerId == pid)

/-- SQLite foreign-key check for a nullable Provider_ID column: a NULL
value is exempt from the constraint; a non-NULL value must match an
existing Provider_ID. -/
def fkOk (db : DB) (pid : Option Nat) : Bool :=
  match pid with
  | none => true
  | some p => providerExists db p

/-- `add_provider(conn, name, p_type, address, city, contact)`: a
parameterized `INSERT INTO Providers` followed by `commit`. The new row
gets the AUTOINCREMENT id. The Python function has no return statement, so
it returns `None`: the second component of the result is that return
value. -/
def add_provider (db : DB) (name p_type address city contact : String) :
    DB × Option Nat :=
  let pid := nextId Provider.providerId db.providers
  ({ db with
      providers :=
        { rows := db.providers.rows ++ [⟨pid, name, p_type, address, city, contact⟩],
          seq := pid } },
   none)

/-- `add_food_listing(conn, food_name, quantity, expiry_date, provider_id,
provider_type, location, food_type, meal_type)`: a parameterized
`INSERT INTO Food_Listings` followed by `commit`. With
`PRAGMA foreign_keys = ON`, an insert whose (non-NULL) Provider_ID matches
no Providers row raises `IntegrityError` and writes nothing; otherwise the
row is appended with the AUTOINCREMENT id. Quantity is stored as given
(there is no validation in the function and no CHECK constraint in the
schema). -/
def add_food_listing (db : DB) (food_name : String) (quantity : Int)
    (expiry_date : String) (provider_id : Option Nat)
    (provider_type location food_type meal_type : String) :
    Except RepoError DB :=
  if fkOk db provider_id then
    let fid := nextId FoodListing.foodId db.foodListings
    Except.ok
      { db with
        foodListings :=
          { rows := db.foodListings.rows ++
              [⟨fid, food_name, quantity, expiry_date, provider_id,
                provider_type, location, food_type, meal_type⟩],
            seq := fid } }
  else Except.error RepoError.referentialError

/-- `delete_listing(conn, food_id)`: `DELETE FROM Food_Listings WHERE
Food_ID = ?` followed by `commit`. With foreign keys on, the
`ON DELETE CASCADE` on Claims.Food_ID also removes every Claim whose
Food_ID equals the deleted listing's id. -/
def delete_listing (db : DB) (food_id : Nat) : DB :=
  { db with
    foodListings :=
      { db.foodListings with
        rows := db.foodListings.rows.filter (fun f => f.foodId ≠ food_id) },
    claims :=
      { db.claims with
        rows := db.claims.rows.filter (fun c => c.foodId ≠ some food_id) } }

/-- `delete_provider(conn, provider_id)`: `DELETE FROM Providers WHERE
Provider_ID = ?` followed by `commit`. The cascade chain removes every
Food_Listings row whose Provider_ID equals the deleted provider's id, and
every Claims row whose Food_ID equals one of those removed listings'
ids. -/
def delete_provider (db : DB) (provider_id : Nat) : DB :=
  let removedFood :=
    (db.foodListings.rows.filter (fun f => f.providerId = some provider_id)).map
      (fun f => f.foodId)
  { db with
    providers :=
      { db.providers with
        rows := db.providers.rows.filter (fun p => p.providerId ≠ provider_id) },
    foodListings :=
      { db.foodListings with
        rows := db.foodListings.rows.filter
          (fun f => f.providerId ≠ some provider_id) },
    claims :=
      { db.claims with
        rows := db.claims.rows.filter
          (fun c => ¬ removedFood.any (fun fid => c.foodId == some fid)) } }

/-- View Records tab: `SELECT * FROM Food_Listings ORDER BY Expiry_Date
ASC`. The dates are stored as ISO text, so SQLite orders them by its binary
text collation, i.e. lexicographically. -/
def listFoodListings (db : DB) : List FoodListing :=
  db.foodListings.rows.mergeSort (fun a b => a.expiryDate ≤ b.expiryDate)

/-- View Records tab: `SELECT * FROM Providers` (no ORDER BY). -/
def listProviders (db : DB) : List Provider :=
  db.providers.rows

/-- The CSV datasets available in the `data` directory for the bulk load in
`setup_database` (`none` models a missing file or one that fails to read:
that error is caught and the table is left alone). -/
structure Datasets where
  providersCsv : Option (List Provider)
  receiversCsv : Option (List Receiver)
  foodListingsCsv : Option (List FoodListing)
  claimsCsv : Option (List Claim)
deriving DecidableEq, Repr

/-- One table's step of `setup_database`: `CREATE TABLE IF NOT EXISTS`
leaves an existing table alone; then `SELECT COUNT(*)` decides whether to
bulk-load: only when the table is empty and the CSV is readable are its
rows appended (`df.to_sql(..., if_exists=append)`), which also advances the
sequence counter past the largest id the dataset carries. -/
def loadIfEmpty {ρ : Type} (idOf : ρ → Nat) (csv : Option (List ρ))
    (t : Table ρ) : Table ρ :=
  if t.rows.isEmpty then
    match csv with
    | some rows =>
        { rows := t.rows ++ rows,
          seq := max t.seq (maxIdList (rows.map idOf)) }
    | none => t
  else t

/-- `setup_database(conn)`: creates the four tables if they do not exist and
bulk-loads each one from its CSV file exactly when it is empty, then
commits. -/
def setup_database (ds : Datasets) (db : DB) : DB :=
  { providers := loadIfEmpty Provider.providerId ds.providersCsv db.providers,
    receivers := loadIfEmpty Receiver.receiverId ds.receiversCsv db.receivers,
    foodListings :=
      loadIfEmpty FoodListing.foodId ds.foodListingsCsv db.foodListings,
    claims := loadIfEmpty Claim.claimId ds.claimsCsv db.claims }

/-! ### Analytics queries (Data Analysis page) -/

/-- `SELECT SUM(Quantity) AS TotalQuantity FROM Food_Listings;` — SQL `SUM`
over zero rows is NULL, surfaced to pandas as NaN; otherwise the sum of the
Quantity column. -/
def sqlSumQuantity (db : DB) : Option Int :=
  if db.foodListings.rows.isEmpty then none
  else some ((db.foodListings.rows.map (fun f => f.quantity)).foldr (· + ·) 0)

/-- Report (4), "Total Quantity of Available Food": the SUM query always
yields exactly one row, so the source's `if not df.empty` guard always
passes and it evaluates `int(df[TotalQuantity][0])`. When the table is
empty that cell is the NULL/NaN from `sqlSumQuantity` and the `int(...)`
conversion raises — modelled as `Except.error ()`. -/
def totalQuantityAvailable (db : DB) : Except Unit Int :=
  match sqlSumQuantity db with
  | some s => Except.ok s
  | none => Except.error ()

/-- `GROUP BY` a list of keys with `COUNT`: one row per distinct key (in
first-appearance order) with its multiplicity. -/
def groupCount (keys : List String) : List (String × Nat) :=
  keys.eraseDups.map (fun k => (k, (keys.filter (fun x => x == k)).length))

/-- Sum the second components that share a first component: `GROUP BY` with
`SUM`. -/
def groupSum (pairs : List (String × Int)) : List (String × Int) :=
  (pairs.map (fun p => p.1)).eraseDups.map
    (fun k => (k, ((pairs.filter (fun p => p.1 == k)).map (fun p => p.2)).foldr (· + ·) 0))

/-- Report (1), provider side: `SELECT City, COUNT(Provider_ID) FROM
Providers GROUP BY City ORDER BY NumberOfProviders DESC;`. -/
def providersByCity (db : DB) : List (String × Nat) :=
  (groupCount (db.providers.rows.map (fun p => p.city))).mergeSort
    (fun a b => b.2 ≤ a.2)

/-- Report (1), receiver side: `SELECT City, COUNT(Receiver_ID) FROM
Receivers GROUP BY City ORDER BY NumberOfReceivers DESC;`. -/
def receiversByCity (db : DB) : List (String × Nat) :=
  (groupCount (db.receivers.rows.map (fun r => r.city))).mergeSort
    (fun a b => b.2 ≤ a.2)

/-- Report (1): `pd.merge(..., on="City", how="outer").fillna(0)` — one row
per city appearing on either side, the missing side filled with 0. -/
def cityCountsMerged (db : DB) : List (String × Nat × Nat) :=
  let ps := providersByCity db
  let rs := receiversByCity db
  ((ps.map (fun x => x.1) ++ rs.map (fun x => x.1)).eraseDups).map
    (fun c =>
      (c, ((ps.find? (fun x => x.1 == c)).map (fun x => x.2)).getD 0,
          ((rs.find? (fun x => x.1 == c)).map (fun x => x.2)).getD 0))

/-- The inner join `Providers p JOIN Food_Listings fl ON p.Provider_ID =
fl.Provider_ID`, projected to (p.Type, fl.Quantity): listings whose
Provider_ID is NULL or dangling produce no row. -/
def joinedTypeQuantities (db : DB) : List (String × Int) :=
  db.foodListings.rows.flatMap (fun f =>
    (db.providers.rows.filter (fun p => some p.providerId == f.providerId)).map
      (fun p => (p.ptype, f.quantity)))

/-- Report (2), "Top Contributing Food Provider Type": group the join by
provider type, sum quantity, `ORDER BY ... DESC LIMIT 1`; `none` models the
zero-row result the source guards with `if not df.empty`. -/
def topProviderType (db : DB) : Option (String × Int) :=
  ((groupSum (joinedTypeQuantities db)).mergeSort (fun a b => b.2 ≤ a.2)).head?

/-- Report (5), "City with the Most Food Listings": `SELECT Location,
COUNT(Food_ID) FROM Food_Listings GROUP BY Location ORDER BY
NumberOfListings DESC LIMIT 1;`; `none` models the zero-row result the
source guards with `if not df.empty`. -/
def cityWithMostListings (db : DB) : Option (String × Nat) :=
  (((groupCount (db.foodListings.rows.map (fun f => f.location)))).mergeSort
    (fun a b => b.2 ≤ a.2)).head?

/-- Report (8/10), "Distribution of Claim Statuses": `SELECT Status,
COUNT(Claim_ID) FROM Claims GROUP BY Status;`. -/
def statusDistribution (db : DB) : List (String × Nat) :=
  groupCount (db.claims.rows.map (fun c => c.status))

/-! ### Report (3): provider contacts by city

The source interpolates the selected city directly into the SQL text:
`f"SELECT Name AS ProviderName, Contact, Address FROM Providers WHERE City
= '{selected_city}'"`. The behaviour therefore depends on how SQLite's
lexer scans the resulting quoted literal: inside `'...'` a doubled quote
is an escaped quote character and a lone quote terminates the literal.
We scan the interpolated text the same way; if the literal closes early,
the leftover text makes the statement malformed and the query raises
(modelled as `Except.error ()`; leftover text that happens to scan as
further SQL — an injection — is beyond this model and also mapped to the
error case). -/

/-- The single-quote character. -/
def sqChar : Char := Char.ofNat 39

/-- Scan the text standing after the opening quote of a SQL string
literal: returns the literal's value and the text after the closing quote,
or `none` if the literal never closes. A doubled quote contributes one
quote character to the value. -/
def parseSqlLit : List Char → Option (List Char × List Char)
  | [] => none
  | c :: rest =>
    if c == sqChar then
      match rest with
      | [] => some ([], [])
      | c2 :: rest2 =>
        if c2 == sqChar then
          (parseSqlLit rest2).map (fun p => (c :: p.1, p.2))
        else some ([], rest)
    else (parseSqlLit rest).map (fun p => (c :: p.1, p.2))

/-- Report (3), "Find Provider Contact Information by City": the city is
spliced into the query text between quotes, so the effective filter value
is whatever the SQL lexer reads back out of `'{city}'`; when the literal
closes before the end of the spliced text the statement is malformed and
the call raises. On success: exact-match filter on City, projecting
(Name, Contact, Address). -/
def provider_contacts_by_city (db : DB) (city : String) :
    Except Unit (List (String × String × String)) :=
  match parseSqlLit (city.data ++ [sqChar]) with
  | some (content, []) =>
      Except.ok
        ((db.providers.rows.filter (fun p => p.city.data == content)).map
          (fun p => (p.name, p.contact, p.address)))
  | _ => Except.error ()

/-! ### Concrete states used to evaluate the definitions -/

/-- The store of the spec's example scenario 1: one provider (id 1) and its
single listing of 20 sandwiches (id 1). -/
def dbSandwiches : DB :=
  { providers :=
      { rows := [⟨1, "Joes Deli", "Restaurant", "1 Main St", "Springfield", "555-0100"⟩],
        seq := 1 },
    receivers := { rows := [], seq := 0 },
    foodListings :=
      { rows := [⟨1, "Sandwiches", 20, "2024-01-10", some 1, "Restaurant",
          "Springfield", "Vegetarian", "Lunch"⟩],
        seq := 1 },
    claims := { rows := [], seq := 0 } }

/-- A store holding just one provider (id 1) and nothing else. -/
def dbJoes : DB :=
  { providers :=
      { rows := [⟨1, "Joes Deli", "Restaurant", "1 Main St", "Springfield", "555-0100"⟩],
        seq := 1 },
    receivers := { rows := [], seq := 0 },
    foodListings := { rows := [], seq := 0 },
    claims := { rows := [], seq := 0 } }

/-- A store with one row in every table. -/
def dbFull : DB :=
  { providers :=
      { rows := [⟨1, "Joes Deli", "Restaurant", "1 Main St", "Springfield", "555-0100"⟩],
        seq := 1 },
    receivers :=
      { rows := [⟨1, "Food Bank", "NGO", "Springfield", "555-0200"⟩], seq := 1 },
    foodListings :=
      { rows := [⟨1, "Sandwiches", 20, "2024-01-10", some 1, "Restaurant",
          "Springfield", "Vegetarian", "Lunch"⟩],
        seq := 1 },
    claims :=
      { rows := [⟨1, some 1, some 1, "Pending", "2024-01-05 10:00:00"⟩], seq := 1 } }

/-- No CSV file is readable for any table. -/
def dsNone : Datasets :=
  { providersCsv := none, receiversCsv := none,
    foodListingsCsv := none, claimsCsv := none }

/-- A city name containing a single-quote character. -/
def obrien : String := "O" ++ String.singleton sqChar ++ "Brien"

/-- A store whose single provider lives in the quote-containing city. -/
def dbOBrien : DB :=
  { providers :=
      { rows := [⟨1, "Pats Corner", "Restaurant", "2 High St", obrien, "555-0101"⟩],
        seq := 1 },
    receivers := { rows := [], seq := 0 },
    foodListings := { rows := [], seq := 0 },
    claims := { rows := [], seq := 0 } }

/-- Every member of a list of ids is bounded by `maxIdList`. -/
theorem le_maxIdList {x : Nat} {ids : List Nat} (h : x ∈ ids) :
    x ≤ maxIdList ids := by
  induction ids with
  | nil => cases h
  | cons y ys ih =>
    rcases List.mem_cons.mp h with h1 | h2
    · subst h1; exact le_max_left _ _
    · exact le_trans (ih h2) (le_max_right _ _)

/-! ### Claims -/

/-- Claim C2: for every call to `add_food_listing` with a Provider_ID not
present in the Providers table, the insert fails with the referential
(foreign-key) error; the function is pure here, so the erroring call leaves
the store exactly as it was — no Food_Listings row is written. -/
theorem C2_add_food_listing_missing_provider (db : DB) (food_name : String)
    (quantity : Int) (expiry_date : String) (p : Nat)
    (provider_type location food_type meal_type : String)
    (hp : providerExists db p = false) :
    add_food_listing db food_name quantity expiry_date (some p) provider_type
        location food_type meal_type =
      Except.error RepoError.referentialError := by
  simp [add_food_listing, fkOk, hp]

/-- Claim C2 witness: provider id 999 does not exist in the fresh store and
the insert of the spec's example listing against it is rejected. -/
theorem C2_add_food_listing_missing_provider_witness :
    providerExists emptyDB 999 = false ∧
    add_food_listing emptyDB "Sandwiches" 20 "2024-01-10" (some 999)
        "Restaurant" "Springfield" "Vegetarian" "Lunch" =
      Except.error RepoError.referentialError :=
  ⟨by decide,
   C2_add_food_listing_missing_provider emptyDB "Sandwiches" 20 "2024-01-10"
     999 "Restaurant" "Springfield" "Vegetarian" "Lunch" (by decide)⟩

/-- Claim C3: for every storage state, `listFoodListings` returns a
permutation of the Food_Listings rows (the full set of current listings)
arranged non-decreasing by expiry date. -/
theorem C3_listFoodListings_sorted_permutation (db : DB) :
    List.Perm (listFoodListings db) db.foodListings.rows ∧
    (listFoodListings db).Pairwise
      (fun a b => a.expiryDate ≤ b.expiryDate) := by
  constructor
  · exact List.mergeSort_perm db.foodListings.rows _
  · have h :=
      @List.sorted_mergeSort FoodListing
        (fun a b => decide (a.expiryDate ≤ b.expiryDate))
        (fun a b c hab hbc => by
          simp only [decide_eq_true_eq] at *
          exact le_trans hab hbc)
        (fun a b => by
          simp only [Bool.or_eq_true, decide_eq_true_eq]
          exact le_total a.expiryDate b.expiryDate)
        db.foodListings.rows
    exact h.imp (fun hab => by simpa using hab)

/-- Claim C4: report (4) sums Quantity over the Food_Listings rows, but on
an empty table the SUM query yields a single NULL cell and the source's
`int(...)` conversion of it raises instead of producing 0: the report
errors on the empty store and returns the exact sum (20) on the example
store. -/
theorem C4_total_quantity_report :
    totalQuantityAvailable emptyDB = Except.error () ∧
    totalQuantityAvailable dbSandwiches = Except.ok 20 :=
  ⟨rfl, rfl⟩

/-- Claim C5: on the empty store the modelled reports (1), (2), (5) and (8)
all complete without error — empty sequence or no-top-value sentinel — but
report (4), total quantity available, errors (NULL sum fed to `int`), so
not every report in the catalogue tolerates empty source tables. -/
theorem C5_reports_on_empty_store :
    cityCountsMerged emptyDB = [] ∧
    topProviderType emptyDB = none ∧
    cityWithMostListings emptyDB = none ∧
    statusDistribution emptyDB = [] ∧
    totalQuantityAvailable emptyDB = Except.error () := by
  have hed : ([] : List String).eraseDups = [] := rfl
  refine ⟨?_, ?_, ?_, rfl, rfl⟩
  · simp [cityCountsMerged, providersByCity, receiversByCity, groupCount,
      emptyDB, hed]
  · simp [topProviderType, joinedTypeQuantities, groupSum, emptyDB, hed]
  · simp [cityWithMostListings, groupCount, emptyDB, hed]

/-- Claim C1: for a provider P present in the store, `delete_provider P.id`
removes P, exactly the Food_Listings rows whose Provider_ID is P's id, and
exactly the Claims rows whose Food_ID is one of those removed listings'
ids; every other providers/listings/claims row survives and the Receivers
table is untouched. -/
theorem C1_delete_provider_cascade (db : DB) (P : Provider)
    (hP : P ∈ db.providers.rows) :
    P ∉ (delete_provider db P.providerId).providers.rows ∧
    (∀ q : Provider,
        q ∈ (delete_provider db P.providerId).providers.rows ↔
          q ∈ db.providers.rows ∧ q.providerId ≠ P.providerId) ∧
    (∀ f : FoodListing,
        f ∈ (delete_provider db P.providerId).foodListings.rows ↔
          f ∈ db.foodListings.rows ∧ f.providerId ≠ some P.providerId) ∧
    (∀ c : Claim,
        c ∈ (delete_provider db P.providerId).claims.rows ↔
          c ∈ db.claims.rows ∧
            ¬ ∃ f : FoodListing, f ∈ db.foodListings.rows ∧
                f.providerId = some P.providerId ∧ c.foodId = some f.foodId) ∧
    (delete_provider db P.providerId).receivers = db.receivers := by
  refine ⟨?_, ?_, ?_, ?_, rfl⟩
  · intro hmem
    have := (List.mem_filter.mp hmem).2
    simp at this
  · intro q
    simp [delete_provider, List.mem_filter]
  · intro f
    simp [delete_provider, List.mem_filter]
  · intro c
    simp only [delete_provider, List.mem_filter, decide_eq_true_eq,
      List.any_eq_true, List.mem_map, List.mem_filter, beq_iff_eq]
    constructor
    · rintro ⟨hc, hno⟩
      refine ⟨hc, ?_⟩
      rintro ⟨f, hf, hfp, hcf⟩
      exact hno ⟨f.foodId, ⟨f, ⟨hf, by simp [hfp]⟩, rfl⟩, hcf⟩
    · rintro ⟨hc, hno⟩
      refine ⟨hc, ?_⟩
      rintro ⟨fid, ⟨f, ⟨hf, hfp⟩, rfl⟩, hcf⟩
      exact hno ⟨f, hf, by simpa using hfp, hcf⟩

/-- Claim C1 witness: deleting provider 1 from the fully populated example
store removes the provider, its listing, and the claim on that listing,
and leaves the receiver in place. -/
theorem C1_delete_provider_cascade_witness :
    (⟨1, "Joes Deli", "Restaurant", "1 Main St", "Springfield", "555-0100"⟩ : Provider)
        ∈ dbFull.providers.rows ∧
    (⟨1, "Joes Deli", "Restaurant", "1 Main St", "Springfield", "555-0100"⟩ : Provider)
        ∉ (delete_provider dbFull 1).providers.rows ∧
    (delete_provider dbFull 1).receivers = dbFull.receivers :=
  ⟨by decide,
   (C1_delete_provider_cascade dbFull
     ⟨1, "Joes Deli", "Restaurant", "1 Main St", "Springfield", "555-0100"⟩
     (by decide)).1,
   (C1_delete_provider_cascade dbFull
     ⟨1, "Joes Deli", "Restaurant", "1 Main St", "Springfield", "555-0100"⟩
     (by decide)).2.2.2.2⟩

/-- Claim C10: `delete_listing fid` leaves the Providers and Receivers
tables (and the sequence counters) untouched; it removes exactly the
Food_Listings rows with Food_ID = fid and exactly the Claims rows whose
Food_ID references fid — every other listing and claim survives. -/
theorem C10_delete_listing_frame (db : DB) (fid : Nat) :
    (delete_listing db fid).providers = db.providers ∧
    (delete_listing db fid).receivers = db.receivers ∧
    (delete_listing db fid).foodListings.seq = db.foodListings.seq ∧
    (delete_listing db fid).claims.seq = db.claims.seq ∧
    (∀ f : FoodListing,
        f ∈ (delete_listing db fid).foodListings.rows ↔
          f ∈ db.foodListings.rows ∧ f.foodId ≠ fid) ∧
    (∀ c : Claim,
        c ∈ (delete_listing db fid).claims.rows ↔
          c ∈ db.claims.rows ∧ c.foodId ≠ some fid) := by
  refine ⟨rfl, rfl, rfl, rfl, ?_, ?_⟩
  · intro f
    simp [delete_listing, List.mem_filter]
  · intro c
    simp [delete_listing, List.mem_filter]

/-- Applying `loadIfEmpty` twice is the same as applying it once. -/
theorem loadIfEmpty_idem {ρ : Type} (idOf : ρ → Nat) (csv : Option (List ρ))
    (t : Table ρ) :
    loadIfEmpty idOf csv (loadIfEmpty idOf csv t) = loadIfEmpty idOf csv t := by
  rcases h : t.rows.isEmpty with hf | ht
  · simp [loadIfEmpty, h]
  · have hnil : t.rows = [] := List.isEmpty_iff.mp h
    rcases csv with _ | rows
    · simp [loadIfEmpty, h]
    · rcases hr : rows.isEmpty with hrf | hrt
      · simp [loadIfEmpty, h, hnil, hr]
      · have hrnil : rows = [] := List.isEmpty_iff.mp hr
        simp [loadIfEmpty, h, hnil, hrnil, maxIdList]

/-- A table that already holds rows is returned unchanged by
`loadIfEmpty`. -/
theorem loadIfEmpty_of_ne_nil {ρ : Type} (idOf : ρ → Nat)
    (csv : Option (List ρ)) (t : Table ρ) (h : t.rows ≠ []) :
    loadIfEmpty idOf csv t = t := by
  simp [loadIfEmpty, List.isEmpty_iff, h]

/-- Claim C6: `setup_database` is idempotent — running it a second time on
the store it just produced changes nothing (in particular it duplicates no
rows) — and on a store whose tables already contain data each such table is
returned exactly as it was, never re-created or truncated. -/
theorem C6_setup_database_idempotent (ds : Datasets) (db : DB) :
    setup_database ds (setup_database ds db) = setup_database ds db ∧
    (db.providers.rows ≠ [] → (setup_database ds db).providers = db.providers) ∧
    (db.receivers.rows ≠ [] → (setup_database ds db).receivers = db.receivers) ∧
    (db.foodListings.rows ≠ [] →
      (setup_database ds db).foodListings = db.foodListings) ∧
    (db.claims.rows ≠ [] → (setup_database ds db).claims = db.claims) := by
  refine ⟨?_, ?_, ?_, ?_, ?_⟩
  · simp [setup_database, loadIfEmpty_idem]
  · intro h; simp [setup_database, loadIfEmpty_of_ne_nil _ _ _ h]
  · intro h; simp [setup_database, loadIfEmpty_of_ne_nil _ _ _ h]
  · intro h; simp [setup_database, loadIfEmpty_of_ne_nil _ _ _ h]
  · intro h; simp [setup_database, loadIfEmpty_of_ne_nil _ _ _ h]

/-- Claim C6 witness: on the fully populated store (every table holding a
row) with no CSV files readable, `setup_database` is idempotent and leaves
every table exactly as it was. -/
theorem C6_setup_database_idempotent_witness :
    setup_database dsNone (setup_database dsNone dbFull) =
      setup_database dsNone dbFull ∧
    (setup_database dsNone dbFull).providers = dbFull.providers ∧
    (setup_database dsNone dbFull).receivers = dbFull.receivers ∧
    (setup_database dsNone dbFull).foodListings = dbFull.foodListings ∧
    (setup_database dsNone dbFull).claims = dbFull.claims :=
  ⟨(C6_setup_database_idempotent dsNone dbFull).1,
   (C6_setup_database_idempotent dsNone dbFull).2.1 (by decide),
   (C6_setup_database_idempotent dsNone dbFull).2.2.1 (by decide),
   (C6_setup_database_idempotent dsNone dbFull).2.2.2.1 (by decide),
   (C6_setup_database_idempotent dsNone dbFull).2.2.2.2 (by decide)⟩

/-- Claim C7 counterexample: calling `add_provider` on the fresh store does
insert the new row (which receives the fresh surrogate id 1), but the call
returns `none` — the Python function body has no return statement — so the
newly assigned id is not returned to the caller as the claim states. -/
theorem C7_add_provider_returns_none :
    (add_provider emptyDB "Joes Deli" "Restaurant" "1 Main St" "Springfield"
        "555-0100").2 = none ∧
    nextId Provider.providerId emptyDB.providers = 1 ∧
    (add_provider emptyDB "Joes Deli" "Restaurant" "1 Main St" "Springfield"
        "555-0100").1.providers.rows =
      [⟨1, "Joes Deli", "Restaurant", "1 Main St", "Springfield", "555-0100"⟩] :=
  ⟨rfl, rfl, rfl⟩

/-- Claim C7 (amended): every call to `add_provider` appends one new
Providers row carrying the fresh surrogate id (strictly larger than every
id already in the table), leaves the other tables untouched, and returns
`none` rather than the new id. -/
theorem C7_add_provider_inserts_row (db : DB)
    (name p_type address city contact : String) :
    (add_provider db name p_type address city contact).1.providers.rows =
      db.providers.rows ++
        [⟨nextId Provider.providerId db.providers, name, p_type, address,
          city, contact⟩] ∧
    (∀ q : Provider, q ∈ db.providers.rows →
        q.providerId < nextId Provider.providerId db.providers) ∧
    (add_provider db name p_type address city contact).1.receivers =
      db.receivers ∧
    (add_provider db name p_type address city contact).1.foodListings =
      db.foodListings ∧
    (add_provider db name p_type address city contact).1.claims = db.claims ∧
    (add_provider db name p_type address city contact).2 = none := by
  refine ⟨rfl, ?_, rfl, rfl, rfl, rfl⟩
  intro q hq
  have h1 : q.providerId ≤ maxIdList (db.providers.rows.map Provider.providerId) :=
    le_maxIdList (List.mem_map.mpr ⟨q, hq, rfl⟩)
  calc q.providerId
      ≤ max db.providers.seq (maxIdList (db.providers.rows.map Provider.providerId)) :=
        le_trans h1 (le_max_right _ _)
    _ < nextId Provider.providerId db.providers := Nat.lt_succ_self _

/-- Claim C8 counterexample: `add_food_listing` with quantity 0 against the
store holding provider 1 succeeds and stores the zero-quantity listing —
no positivity check exists in the function or the schema, so the claimed
invariant fails. -/
theorem C8_zero_quantity_stored :
    add_food_listing dbJoes "Rice" 0 "2024-01-01" (some 1) "Restaurant"
        "Springfield" "Vegetarian" "Lunch" =
      Except.ok
        { dbJoes with
          foodListings :=
            { rows := [⟨1, "Rice", 0, "2024-01-01", some 1, "Restaurant",
                "Springfield", "Vegetarian", "Lunch"⟩],
              seq := 1 } } :=
  rfl

/-- Claim C8 (amended): the repository performs no quantity validation:
whenever the foreign-key check passes, `add_food_listing` with any
quantity ≤ 0 succeeds and stores the listing with that quantity as given
(positivity is imposed only by the UI form's number input, not by this
layer). -/
theorem C8_nonpositive_quantity_stored (db : DB) (food_name : String)
    (quantity : Int) (expiry_date : String) (provider_id : Option Nat)
    (provider_type location food_type meal_type : String)
    (hq : quantity ≤ 0) (hfk : fkOk db provider_id = true) :
    add_food_listing db food_name quantity expiry_date provider_id
        provider_type location food_type meal_type =
      Except.ok
        { db with
          foodListings :=
            { rows := db.foodListings.rows ++
                [⟨nextId FoodListing.foodId db.foodListings, food_name,
                  quantity, expiry_date, provider_id, provider_type, location,
                  food_type, meal_type⟩],
              seq := nextId FoodListing.foodId db.foodListings } } := by
  simp [add_food_listing, hfk]

/-- Claim C8 witness: quantity -5 passes the foreign-key check against the
provider-only store and is stored as given. -/
theorem C8_nonpositive_quantity_stored_witness :
    (-5 : Int) ≤ 0 ∧ fkOk dbJoes (some 1) = true ∧
    add_food_listing dbJoes "Rice" (-5) "2024-01-01" (some 1) "Restaurant"
        "Springfield" "Vegetarian" "Lunch" =
      Except.ok
        { dbJoes with
          foodListings :=
            { rows := [⟨1, "Rice", -5, "2024-01-01", some 1, "Restaurant",
                "Springfield", "Vegetarian", "Lunch"⟩],
              seq := 1 } } :=
  ⟨by decide, by decide,
   C8_nonpositive_quantity_stored dbJoes "Rice" (-5) "2024-01-01" (some 1)
     "Restaurant" "Springfield" "Vegetarian" "Lunch" (by decide) (by decide)⟩

/-- Claim C9: the report-3 lookup splices the city text straight into the
SQL string, so for a stored city containing a single quote the statement's
literal closes early and the query raises instead of returning that
provider's contact row: the exact-match contract fails for
quote-containing cities. -/
theorem C9_city_lookup_quote_fails :
    (dbOBrien.providers.rows.filter (fun p => p.city == obrien)).length = 1 ∧
    provider_contacts_by_city dbOBrien obrien = Except.error () :=
  ⟨rfl, rfl⟩
